import Mathlib

/-!
Shallow embedding of the StravaMCP OAuth 2.1 access-control subsystem.

Sources embedded here:
* `src/oauth/utils.ts` — `base64UrlEncode`, `sha256Base64Url`, `isValidPkceS256`
  (SHA-256 itself is Node's `createHash('sha256')`, embedded as the FIPS 180-4
  algorithm over byte lists; JS strings are hashed as their UTF-8 bytes).
* `src/oauth/store.ts` — the DynamoDB-backed record store.  Each table is
  modelled as an association list keyed by the table's primary key
  (`client_id` / `code` / `access_token`); `Put` replaces the item with the
  same primary key or appends, `Get` is lookup by primary key, the
  refresh-token GSI query with `Limit 1` is first-match lookup, `Delete`
  removes by primary key.  Table-name indirection is dropped: the store value
  itself stands for the named table.
* `src/oauth/routes.ts` — registration, authorize, token endpoints and
  `validateAccessToken`.  Randomness (`generateToken`) and the clock
  (`Math.floor(Date.now()/1000)`) enter as explicit parameters.
  JavaScript truthiness on optional strings (`undefined` and `""` both falsy)
  is modelled by `truthy : Option String → Bool`.
* `src/strava-client.ts` — the gateway authentication middleware of
  `createApp`.
-/

namespace StravaMCP

/-! ## 32-bit arithmetic primitives (Nat with explicit truncation) -/

/-- Truncate to 32 bits. -/
def w32 (x : Nat) : Nat := x % 4294967296

/-- 32-bit rotate right by `n` (for `0 < n < 32`, on 32-bit values). -/
def rotr32 (n x : Nat) : Nat := w32 ((x >>> n) + ((x % (2 ^ n)) * (2 ^ (32 - n))))

def smallSigma0 (x : Nat) : Nat := (rotr32 7 x) ^^^ (rotr32 18 x) ^^^ (x >>> 3)

def smallSigma1 (x : Nat) : Nat := (rotr32 17 x) ^^^ (rotr32 19 x) ^^^ (x >>> 10)

def bigSigma0 (x : Nat) : Nat := (rotr32 2 x) ^^^ (rotr32 13 x) ^^^ (rotr32 22 x)

def bigSigma1 (x : Nat) : Nat := (rotr32 6 x) ^^^ (rotr32 11 x) ^^^ (rotr32 25 x)

def chVal (x y z : Nat) : Nat := (x &&& y) ^^^ ((x ^^^ 4294967295) &&& z)

def majVal (x y z : Nat) : Nat := (x &&& y) ^^^ (x &&& z) ^^^ (y &&& z)

/-! ## SHA-256 (FIPS 180-4) over byte lists -/

/-- The 64 SHA-256 round constants of FIPS 180-4 (decimal form). -/
def sha256K : List Nat :=
  [1116352408, 1899447441, 3049323471, 3921009573, 961987163,
   1508970993, 2453635748, 2870763221, 3624381080, 310598401,
   607225278, 1426881987, 1925078388, 2162078206, 2614888103,
   3248222580, 3835390401, 4022224774, 264347078, 604807628,
   770255983, 1249150122, 1555081692, 1996064986, 2554220882,
   2821834349, 2952996808, 3210313671, 3336571891, 3584528711,
   113926993, 338241895, 666307205, 773529912, 1294757372,
   1396182291, 1695183700, 1986661051, 2177026350, 2456956037,
   2730485921, 2820302411, 3259730800, 3345764771, 3516065817,
   3600352804, 4094571909, 275423344, 430227734, 506948616,
   659060556, 883997877, 958139571, 1322822218, 1537002063,
   1747873779, 1955562222, 2024104815, 2227730452, 2361852424,
   2428436474, 2756734187, 3204031479, 3329325298]

/-- The eight SHA-256 initial hash values (decimal form). -/
def sha256H0 : List Nat :=
  [1779033703, 3144134277, 1013904242, 2773480762,
   1359893119, 2600822924, 528734635, 1541459225]

/-- Big-endian byte decomposition: `bytesBE n v` is the low `n` bytes of `v`,
most significant first. -/
def bytesBE : Nat → Nat → List Nat
  | 0, _ => []
  | n + 1, v => bytesBE n (v / 256) ++ [v % 256]

/-- Group a byte list into big-endian 32-bit words (trailing partial group
dropped; inputs are always a multiple of 4 bytes). -/
def toWords : List Nat → List Nat
  | a :: b :: c :: d :: rest => (((a * 256 + b) * 256 + c) * 256 + d) :: toWords rest
  | _ => []

/-- SHA-256 padding: append `0x80`, zero bytes to reach 56 mod 64, then the
64-bit big-endian bit length. -/
def padMessage (msg : List Nat) : List Nat :=
  let l := msg.length
  let z := (119 - (l % 64)) % 64
  msg ++ [0x80] ++ List.replicate z 0 ++ bytesBE 8 (8 * l)

/-- Extend a 16-word block to the 64-word message schedule (push 48 words). -/
def msgScheduleAux : Nat → Array Nat → Array Nat
  | 0, w => w
  | n + 1, w =>
      let i := w.size
      let v := w32 (smallSigma1 (w.getD (i - 2) 0) + w.getD (i - 7) 0 +
                    smallSigma0 (w.getD (i - 15) 0) + w.getD (i - 16) 0)
      msgScheduleAux n (w.push v)

def msgSchedule (block : List Nat) : List Nat :=
  (msgScheduleAux 48 block.toArray).toList

/-- One SHA-256 round on the eight working registers. -/
def sha256Round (st : List Nat) (wk : Nat × Nat) : List Nat :=
  match st with
  | [a, b, c, d, e, f, g, h] =>
      let t1 := w32 (h + bigSigma1 e + chVal e f g + wk.2 + wk.1)
      let t2 := w32 (bigSigma0 a + majVal a b c)
      [w32 (t1 + t2), a, b, c, w32 (d + t1), e, f, g]
  | other => other

/-- Compress one 64-byte block into the running hash state. -/
def compressBlock (h : List Nat) (block : List Nat) : List Nat :=
  let w := msgSchedule (toWords block)
  let st := (w.zip sha256K).foldl sha256Round h
  (h.zip st).map (fun p => w32 (p.1 + p.2))

/-- Fold the compression function over the first `n` 64-byte blocks of a
padded message (structural recursion on the block count so the kernel can
evaluate it). -/
def sha256Blocks : Nat → List Nat → List Nat → List Nat
  | 0, h, _ => h
  | n + 1, h, msg => sha256Blocks n (compressBlock h (msg.take 64)) (msg.drop 64)

/-- SHA-256 digest (32 bytes) of a byte list. -/
def sha256 (msg : List Nat) : List Nat :=
  let padded := padMessage msg
  ((sha256Blocks (padded.length / 64) sha256H0 padded).map (bytesBE 4)).flatten

/-! ## UTF-8 and base64url -/

/-- UTF-8 encoding of one scalar value. -/
def utf8Bytes (c : Char) : List Nat :=
  let n := c.toNat
  if n < 0x80 then [n]
  else if n < 0x800 then [0xC0 + (n >>> 6), 0x80 + (n % 64)]
  else if n < 0x10000 then
    [0xE0 + (n >>> 12), 0x80 + ((n >>> 6) % 64), 0x80 + (n % 64)]
  else
    [0xF0 + (n >>> 18), 0x80 + ((n >>> 12) % 64), 0x80 + ((n >>> 6) % 64),
     0x80 + (n % 64)]

/-- UTF-8 bytes of a string (how Node hashes a JS string). -/
def strUtf8 (s : String) : List Nat := (s.toList.map utf8Bytes).flatten

def base64Alphabet : List Char :=
  "ABCDEFGHIJKLMNOPQRSTUVWXYZabcdefghijklmnopqrstuvwxyz0123456789+/".toList

def b64Char (n : Nat) : Char := base64Alphabet.getD n 'A'

/-- Standard base64 encoding (with `=` padding), as `Buffer.toString('base64')`. -/
def base64GroupsStd : List Nat → List Char
  | a :: b :: c :: rest =>
      b64Char (a / 4) :: b64Char ((a % 4) * 16 + b / 16) ::
      b64Char ((b % 16) * 4 + c / 64) :: b64Char (c % 64) :: base64GroupsStd rest
  | [a, b] => [b64Char (a / 4), b64Char ((a % 4) * 16 + b / 16), b64Char ((b % 16) * 4), '=']
  | [a] => [b64Char (a / 4), b64Char ((a % 4) * 16), '=', '=']
  | [] => []

def stripTrailingEq (cs : List Char) : List Char :=
  (cs.reverse.dropWhile (· = '=')).reverse

/-- `base64UrlEncode` of `src/oauth/utils.ts`: standard base64, `+`→`-`,
`/`→`_`, trailing `=` stripped. -/
def base64UrlEncode (input : List Nat) : String :=
  String.mk (stripTrailingEq ((base64GroupsStd input).map
    (fun c => if c = '+' then '-' else if c = '/' then '_' else c)))

/-- `sha256Base64Url` of `src/oauth/utils.ts`. -/
def sha256Base64Url (value : String) : String :=
  base64UrlEncode (sha256 (strUtf8 value))

/-- Membership in the PKCE verifier character class `[A-Za-z0-9\-._~]`. -/
def isPkceChar (c : Char) : Bool :=
  (('A' ≤ c && c ≤ 'Z') || ('a' ≤ c && c ≤ 'z') || ('0' ≤ c && c ≤ '9') ||
   c = '-' || c = '.' || c = '_' || c = '~')

/-- `isValidPkceS256` of `src/oauth/utils.ts`.  (`String.length` counts
scalar values where JS counts UTF-16 units; on any string containing a
non-ASCII character the charset test fails in both readings, and on ASCII
strings the two lengths agree, so the boolean result is unchanged.) -/
def isValidPkceS256 (verifier challenge : String) : Bool :=
  let length := verifier.length
  if length < 43 || length > 128 then false
  else if !(verifier.toList.all isPkceChar) then false
  else sha256Base64Url verifier == challenge

/-! ## Record store (`src/oauth/store.ts`)

Each DynamoDB table is an association list keyed by its primary key.
`PutCommand` replaces the item with the same key or appends; `GetCommand` is
first-match lookup by key (keys are unique, maintained by put semantics);
the `refresh_token_index` GSI query with `Limit 1` is first-match lookup by
`refresh_token`; `DeleteCommand` removes the item with the key. -/

structure OAuthClient where
  client_id : String
  redirect_uris : List String
  created_at : Nat
  last_used_at : Option Nat := none
  client_name : Option String := none
deriving Repr, DecidableEq

structure OAuthAuthCode where
  code : String
  client_id : String
  redirect_uri : String
  code_challenge : String
  code_challenge_method : String
  scopes : List String
  expires_at : Nat
deriving Repr, DecidableEq

structure OAuthTokenRecord where
  access_token : String
  refresh_token : String
  client_id : String
  scopes : List String
  access_expires_at : Nat
  refresh_expires_at : Nat
  expires_at : Nat
deriving Repr, DecidableEq

/-- `PutCommand` semantics on a table keyed by `key`. -/
def putItem {α : Type} (key : α → String) (tbl : List α) (item : α) : List α :=
  if tbl.any (fun x => key x == key item) then
    tbl.map (fun x => if key x == key item then item else x)
  else
    tbl ++ [item]

def putClient (tbl : List OAuthClient) (client : OAuthClient) : List OAuthClient :=
  putItem (·.client_id) tbl client

def getClient (tbl : List OAuthClient) (clientId : String) : Option OAuthClient :=
  tbl.find? (fun c => c.client_id == clientId)

/-- `touchClient`: `UpdateCommand` setting `last_used_at := now` on the keyed
item.  (DynamoDB would create a bare item when the key is absent; the
endpoints only touch clients they have just resolved, so the model updates
the present item and leaves an absent key alone.) -/
def touchClient (tbl : List OAuthClient) (clientId : String) (now : Nat) :
    List OAuthClient :=
  tbl.map (fun c => if c.client_id == clientId then { c with last_used_at := some now } else c)

def putAuthCode (tbl : List OAuthAuthCode) (code : OAuthAuthCode) : List OAuthAuthCode :=
  putItem (·.code) tbl code

def getAuthCode (tbl : List OAuthAuthCode) (code : String) : Option OAuthAuthCode :=
  tbl.find? (fun c => c.code == code)

def deleteAuthCode (tbl : List OAuthAuthCode) (code : String) : List OAuthAuthCode :=
  tbl.filter (fun c => c.code != code)

/-- `consumeAuthCode` of `src/oauth/store.ts`: an unconditional `GetCommand`
followed (only when the item was found) by an unconditional `DeleteCommand`.
Returns the fetched item and the table after the delete. -/
def consumeAuthCode (tbl : List OAuthAuthCode) (code : String) :
    Option OAuthAuthCode × List OAuthAuthCode :=
  match getAuthCode tbl code with
  | none => (none, tbl)
  | some item => (some item, deleteAuthCode tbl code)

def putToken (tbl : List OAuthTokenRecord) (token : OAuthTokenRecord) :
    List OAuthTokenRecord :=
  putItem (·.access_token) tbl token

def getTokenByAccess (tbl : List OAuthTokenRecord) (accessToken : String) :
    Option OAuthTokenRecord :=
  tbl.find? (fun t => t.access_token == accessToken)

/-- Query on the `refresh_token_index` GSI with `Limit 1`: some record with
the given refresh token (first match in the model). -/
def getTokenByRefresh (tbl : List OAuthTokenRecord) (refreshToken : String) :
    Option OAuthTokenRecord :=
  tbl.find? (fun t => t.refresh_token == refreshToken)

/-! ## OAuth endpoints (`src/oauth/routes.ts`) -/

/-- JavaScript truthiness of a `string | undefined` value: `undefined` and
`""` are falsy. -/
def truthy : Option String → Bool
  | none => false
  | some s => s != ""

/-- `value.startsWith(p)` (kernel-evaluable character-list form). -/
def strStartsWith (s p : String) : Bool := p.toList.isPrefixOf s.toList

/-- `value.substring(n)` / dropping the first `n` characters. -/
def strDrop (s : String) (n : Nat) : String := String.mk (s.toList.drop n)

/-- JS `String.prototype.trim` (kernel-evaluable form). -/
def strTrim (s : String) : String :=
  String.mk (((s.toList.dropWhile Char.isWhitespace).reverse.dropWhile
    Char.isWhitespace).reverse)

def splitCharsAux (sep : Char) : List Char → List Char → List String
  | [], acc => [String.mk acc.reverse]
  | c :: cs, acc =>
      if c = sep then String.mk acc.reverse :: splitCharsAux sep cs []
      else splitCharsAux sep cs (c :: acc)

/-- JS `value.split(sep)` for a single-character separator. -/
def splitOnChar (sep : Char) (s : String) : List String :=
  splitCharsAux sep s.toList []

structure OAuthConfig where
  enabled : Bool
  accessTokenTtlSeconds : Nat
  refreshTokenTtlSeconds : Nat
  allowedRedirectUris : List String
  registrationToken : Option String := none
deriving Repr, DecidableEq

/-- `ensureRedirectAllowed` of `src/oauth/routes.ts`: literal membership in
the configured allow-list. -/
def ensureRedirectAllowed (redirectUri : String) (allowed : List String) : Bool :=
  allowed.contains redirectUri

def DEFAULT_SCOPES : List String := ["strava"]

/-- `normalizeScopes`: falsy scope gives the default scope list, otherwise
split on spaces, trim, drop empties. -/
def normalizeScopes : Option String → List String
  | none => DEFAULT_SCOPES
  | some scope =>
      if scope == "" then DEFAULT_SCOPES
      else ((splitOnChar ' ' scope).map strTrim).filter (fun v => v != "")

/-- `getBearerToken`: strip a `Bearer ` prefix from the header value. -/
def getBearerToken : Option String → Option String
  | none => none
  | some value => if strStartsWith value "Bearer " then some (strDrop value 7) else none

/-- The three DynamoDB tables the subsystem uses. -/
structure Store where
  clients : List OAuthClient
  codes : List OAuthAuthCode
  tokens : List OAuthTokenRecord
deriving Repr, DecidableEq

/-- Responses of the OAuth endpoints, structurally.  A redirect keeps its
components (`redirect_uri`, `code`, optional `state`) rather than the
serialized URL. -/
inductive OAuthResponse where
  | oauthError (status : Nat) (error : String) (error_description : Option String)
  | registered (status : Nat) (client_id : String) (client_id_issued_at : Nat)
  | consent (clientName : Option String)
  | redirect (status : Nat) (redirect_uri code : String) (state : Option String)
  | tokenOk (access_token token_type : String) (expires_in : Nat)
      (refresh_token scope : String)
deriving Repr, DecidableEq

structure RegisterRequest where
  redirect_uris : Option (List String) := none
  client_name : Option String := none
  authorization : Option String := none
  xRegistrationToken : Option String := none
deriving Repr, DecidableEq

/-- The part of `POST /register` after the registration-token gate. -/
def postRegisterBody (cfg : OAuthConfig) (clients : List OAuthClient)
    (req : RegisterRequest) (now : Nat) (clientId : String) :
    OAuthResponse × List OAuthClient :=
  match req.redirect_uris with
  | none => (.oauthError 400 "invalid_client_metadata" (some "redirect_uris is required"), clients)
  | some uris =>
      if uris.isEmpty then
        (.oauthError 400 "invalid_client_metadata" (some "redirect_uris is required"), clients)
      else if uris.any (fun uri => !(ensureRedirectAllowed uri cfg.allowedRedirectUris)) then
        (.oauthError 400 "invalid_redirect_uri" (some "redirect_uri not allowed"), clients)
      else
        (.registered 201 clientId now,
         putClient clients
           { client_id := clientId, redirect_uris := uris,
             client_name := req.client_name, created_at := now })

/-- `getBearerToken(authHeader) || req.headers['x-registration-token']`: the
JS `||` falls through on a `null` or empty bearer value. -/
def registrationHeaderToken (req : RegisterRequest) : Option String :=
  match getBearerToken req.authorization with
  | some s => if s != "" then some s else req.xRegistrationToken
  | none => req.xRegistrationToken

/-- `POST /register`.  `clientId` stands for the `generateToken(24)` result,
`now` for `Math.floor(Date.now()/1000)`. -/
def postRegister (cfg : OAuthConfig) (clients : List OAuthClient)
    (req : RegisterRequest) (now : Nat) (clientId : String) :
    OAuthResponse × List OAuthClient :=
  if truthy cfg.registrationToken then
    if registrationHeaderToken req != cfg.registrationToken then
      (.oauthError 401 "invalid_client" (some "Registration token required"), clients)
    else
      postRegisterBody cfg clients req now clientId
  else
    postRegisterBody cfg clients req now clientId

structure AuthorizeInput where
  response_type : Option String := none
  client_id : Option String := none
  redirect_uri : Option String := none
  state : Option String := none
  code_challenge : Option String := none
  code_challenge_method : Option String := none
  scope : Option String := none
deriving Repr, DecidableEq

/-- Outcome of the validation chain both `/authorize` handlers run
(the source duplicates these checks verbatim in GET and POST). -/
inductive AuthorizeCheck where
  | failed (resp : OAuthResponse)
  | passed (client : OAuthClient) (client_id redirect_uri code_challenge : String)
deriving Repr, DecidableEq

def authorizeValidate (cfg : OAuthConfig) (clients : List OAuthClient)
    (inp : AuthorizeInput) : AuthorizeCheck :=
  if inp.response_type != some "code" then
    .failed (.oauthError 400 "unsupported_response_type" none)
  else if !(truthy inp.client_id && truthy inp.redirect_uri &&
            truthy inp.code_challenge && truthy inp.code_challenge_method) then
    .failed (.oauthError 400 "invalid_request" (some "Missing required parameters"))
  else if inp.code_challenge_method != some "S256" then
    .failed (.oauthError 400 "invalid_request" (some "Only S256 is supported"))
  else
    match getClient clients (inp.client_id.getD "") with
    | none => .failed (.oauthError 400 "invalid_client" (some "Unknown client"))
    | some client =>
        if !(client.redirect_uris.contains (inp.redirect_uri.getD "")) then
          .failed (.oauthError 400 "invalid_redirect_uri" (some "Redirect URI mismatch"))
        else if !(ensureRedirectAllowed (inp.redirect_uri.getD "") cfg.allowedRedirectUris) then
          .failed (.oauthError 400 "invalid_redirect_uri" (some "Redirect URI not allowed"))
        else
          .passed client (inp.client_id.getD "") (inp.redirect_uri.getD "")
            (inp.code_challenge.getD "")

/-- `GET /authorize`: validate, then render the consent page.  It writes to
no table. -/
def getAuthorize (cfg : OAuthConfig) (clients : List OAuthClient)
    (inp : AuthorizeInput) : OAuthResponse :=
  match authorizeValidate cfg clients inp with
  | .failed resp => resp
  | .passed client _ _ _ => .consent client.client_name

/-- `POST /authorize`: re-validate, create the grant with a 300 s expiry,
touch the client, 302-redirect with `code` (+ `state`).  `code` stands for
the `generateToken(24)` result. -/
def postAuthorize (cfg : OAuthConfig) (st : Store) (inp : AuthorizeInput)
    (now : Nat) (code : String) : OAuthResponse × Store :=
  match authorizeValidate cfg st.clients inp with
  | .failed resp => (resp, st)
  | .passed _client clientId redirectUri codeChallenge =>
      let scopes := normalizeScopes inp.scope
      let codes := putAuthCode st.codes
        { code := code, client_id := clientId, redirect_uri := redirectUri,
          code_challenge := codeChallenge, code_challenge_method := "S256",
          scopes := scopes, expires_at := now + 300 }
      let clients := touchClient st.clients clientId now
      (.redirect 302 redirectUri code inp.state,
       { st with codes := codes, clients := clients })

structure TokenRequest where
  grant_type : Option String := none
  code : Option String := none
  redirect_uri : Option String := none
  client_id : Option String := none
  code_verifier : Option String := none
  refresh_token : Option String := none
deriving Repr, DecidableEq

/-- `scopes.join(' ')`. -/
def joinScopes : List String → String
  | [] => ""
  | [s] => s
  | s :: rest => s ++ " " ++ joinScopes rest

/-- `POST /token`, `authorization_code` branch (after the grant-type
dispatch).  `freshAccess`/`freshRefresh` stand for the two `generateToken(32)`
results. -/
def tokenAuthorizationCode (cfg : OAuthConfig) (st : Store) (req : TokenRequest)
    (now : Nat) (freshAccess freshRefresh : String) : OAuthResponse × Store :=
  if !(truthy req.code && truthy req.redirect_uri && truthy req.client_id &&
       truthy req.code_verifier) then
    (.oauthError 400 "invalid_request" (some "Missing required parameters"), st)
  else
    match consumeAuthCode st.codes (req.code.getD "") with
    | (none, codes1) =>
        (.oauthError 400 "invalid_grant" (some "Invalid or expired code"),
         { st with codes := codes1 })
    | (some authCode, codes1) =>
        let st1 := { st with codes := codes1 }
        if authCode.client_id != req.client_id.getD "" ||
           authCode.redirect_uri != req.redirect_uri.getD "" then
          (.oauthError 400 "invalid_grant" (some "Client or redirect mismatch"), st1)
        else if authCode.expires_at < now then
          (.oauthError 400 "invalid_grant" (some "Authorization code expired"), st1)
        else if !(isValidPkceS256 (req.code_verifier.getD "") authCode.code_challenge) then
          (.oauthError 400 "invalid_grant" (some "PKCE verification failed"), st1)
        else
          let accessExpiresAt := now + cfg.accessTokenTtlSeconds
          let refreshExpiresAt := now + cfg.refreshTokenTtlSeconds
          let tokens := putToken st1.tokens
            { access_token := freshAccess, refresh_token := freshRefresh,
              client_id := req.client_id.getD "", scopes := authCode.scopes,
              access_expires_at := accessExpiresAt,
              refresh_expires_at := refreshExpiresAt,
              expires_at := refreshExpiresAt }
          let clients := touchClient st1.clients (req.client_id.getD "") now
          (.tokenOk freshAccess "Bearer" cfg.accessTokenTtlSeconds freshRefresh
             (joinScopes authCode.scopes),
           { st1 with tokens := tokens, clients := clients })

/-- `POST /token`, `refresh_token` branch.  `freshAccess` stands for the
`generateToken(32)` result. -/
def tokenRefresh (cfg : OAuthConfig) (st : Store) (req : TokenRequest)
    (now : Nat) (freshAccess : String) : OAuthResponse × Store :=
  if !(truthy req.refresh_token && truthy req.client_id) then
    (.oauthError 400 "invalid_request" (some "Missing refresh_token or client_id"), st)
  else
    match getTokenByRefresh st.tokens (req.refresh_token.getD "") with
    | none => (.oauthError 400 "invalid_grant" (some "Unknown refresh token"), st)
    | some storedToken =>
        if storedToken.client_id != req.client_id.getD "" then
          (.oauthError 400 "invalid_grant" (some "Client mismatch"), st)
        else if storedToken.refresh_expires_at < now then
          (.oauthError 400 "invalid_grant" (some "Refresh token expired"), st)
        else
          let accessExpiresAt := now + cfg.accessTokenTtlSeconds
          let tokens := putToken st.tokens
            { storedToken with
              access_token := freshAccess,
              access_expires_at := accessExpiresAt,
              expires_at := storedToken.refresh_expires_at }
          let clients := touchClient st.clients (req.client_id.getD "") now
          (.tokenOk freshAccess "Bearer" cfg.accessTokenTtlSeconds
             storedToken.refresh_token (joinScopes storedToken.scopes),
           { st with tokens := tokens, clients := clients })

/-- `POST /token`: grant-type dispatch. -/
def postToken (cfg : OAuthConfig) (st : Store) (req : TokenRequest) (now : Nat)
    (freshAccess freshRefresh : String) : OAuthResponse × Store :=
  if !truthy req.grant_type then
    (.oauthError 400 "invalid_request" (some "grant_type is required"), st)
  else if req.grant_type == some "authorization_code" then
    tokenAuthorizationCode cfg st req now freshAccess freshRefresh
  else if req.grant_type == some "refresh_token" then
    tokenRefresh cfg st req now freshAccess
  else
    (.oauthError 400 "unsupported_grant_type" none, st)

/-- `validateAccessToken` of `src/oauth/routes.ts`. -/
def validateAccessToken (cfg : OAuthConfig) (tokens : List OAuthTokenRecord)
    (now : Nat) (accessToken : String) : Bool :=
  if !cfg.enabled then false
  else
    match getTokenByAccess tokens accessToken with
    | none => false
    | some record => decide (record.access_expires_at > now)

/-! ## Gateway authentication middleware (`src/strava-client.ts`, `createApp`) -/

structure GatewayConfig where
  AUTH_TOKEN : String := ""
  OAUTH_ENABLED : Bool := false
deriving Repr, DecidableEq

structure GatewayRequest where
  path : String
  sessionId : Option String := none
  authorization : Option String := none
  qAccessToken : Option String := none
  qToken : Option String := none
deriving Repr, DecidableEq

def publicPaths : List String :=
  ["/health", "/debug", "/.well-known/oauth-authorization-server",
   "/authorize", "/token", "/register"]

/-- Bearer-candidate extraction: `Authorization: Bearer` header, else the
`access_token` query parameter, and if the candidate is still falsy the
`token` query parameter. -/
def extractToken (r : GatewayRequest) : Option String :=
  let fromHeader : Option String :=
    match r.authorization with
    | some h => if strStartsWith h "Bearer " then some (strDrop h 7) else none
    | none => none
  let token : Option String :=
    match fromHeader with
    | some t => some t
    | none => if truthy r.qAccessToken then r.qAccessToken else none
  if !truthy token && truthy r.qToken then r.qToken else token

inductive GatewayResult where
  | next
  | unauthorized (status : Nat) (error message : String)
deriving Repr, DecidableEq

/-- The per-request admission decision of the middleware.  `sessions` is the
set of keys of the in-process `transports` map; `oauthCfg` is the
`oauthConfig` value `createApp` builds (its `enabled` field is
`cfg.OAUTH_ENABLED`, which the override reproduces); `tokens` is the token
table. -/
def gatewayMiddleware (cfg : GatewayConfig) (oauthCfg : OAuthConfig)
    (sessions : List String) (tokens : List OAuthTokenRecord) (now : Nat)
    (r : GatewayRequest) : GatewayResult :=
  if publicPaths.contains r.path then .next
  else if r.path == "/message" && truthy r.sessionId &&
          sessions.contains (r.sessionId.getD "") then .next
  else if truthy (extractToken r) && cfg.AUTH_TOKEN != "" &&
          extractToken r == some cfg.AUTH_TOKEN then
    .next
  else if truthy (extractToken r) && cfg.OAUTH_ENABLED &&
          validateAccessToken { oauthCfg with enabled := cfg.OAUTH_ENABLED }
            tokens now ((extractToken r).getD "") then
    .next
  else if !cfg.OAUTH_ENABLED && cfg.AUTH_TOKEN == "" then
    .next
  else
    .unauthorized 401 "Unauthorized" "Missing or invalid access token"

/-! ## Sequential runs of the token endpoint -/

/-- Fold a sequence of `POST /token` requests (each with its clock value and
fresh token values) through the store. -/
def runTokenSeq (cfg : OAuthConfig)
    (steps : List (TokenRequest × Nat × String × String)) (st : Store) : Store :=
  steps.foldl (fun s p => (postToken cfg s p.1 p.2.1 p.2.2.1 p.2.2.2).2) st

/-! ## Micro-step model of concurrent `consumeAuthCode` calls

`consumeAuthCode` issues two separate store commands: an unconditional
`GetCommand` and then (when the item was found) an unconditional
`DeleteCommand`.  Under concurrency the two commands of one call can
interleave with the commands of another call on the same code.  Each process
runs the program `get ; del`; per-key atomicity holds for each single
command. -/

inductive ConsumeStep where
  | get
  | del
deriving Repr, DecidableEq

structure ConsumerState where
  fetched : Option (Option OAuthAuthCode) := none
  deleted : Bool := false
deriving Repr, DecidableEq

structure TwoConsumerState where
  codes : List OAuthAuthCode
  proc1 : ConsumerState := {}
  proc2 : ConsumerState := {}
deriving Repr, DecidableEq

/-- Execute one command of one `consumeAuthCode` call, respecting its program
order (`get` runs once; `del` runs only after a `get` that found the item,
mirroring the early return on `!result.Item`). -/
def stepConsumer (code : String) (codes : List OAuthAuthCode)
    (p : ConsumerState) : ConsumeStep → List OAuthAuthCode × ConsumerState
  | .get =>
      match p.fetched with
      | none => (codes, { p with fetched := some (getAuthCode codes code) })
      | some _ => (codes, p)
  | .del =>
      match p.fetched with
      | some (some _) =>
          if p.deleted then (codes, p)
          else (deleteAuthCode codes code, { p with deleted := true })
      | _ => (codes, p)

/-- Run one scheduled command; `true` selects process 1. -/
def stepTwo (code : String) (st : TwoConsumerState) :
    Bool × ConsumeStep → TwoConsumerState
  | (true, s) =>
      let r := stepConsumer code st.codes st.proc1 s
      { st with codes := r.1, proc1 := r.2 }
  | (false, s) =>
      let r := stepConsumer code st.codes st.proc2 s
      { st with codes := r.1, proc2 := r.2 }

def runSchedule (code : String) (st : TwoConsumerState)
    (sched : List (Bool × ConsumeStep)) : TwoConsumerState :=
  sched.foldl (stepTwo code) st

/-- The value a completed `consumeAuthCode` call returns to the token
endpoint. -/
def consumerResult (p : ConsumerState) : Option OAuthAuthCode :=
  p.fetched.getD none

/-- The subsequence of commands a schedule assigns to one process. -/
def projSchedule (who : Bool) (sched : List (Bool × ConsumeStep)) : List ConsumeStep :=
  (sched.filter (fun x => x.1 == who)).map (fun x => x.2)

/-- A schedule is an interleaving of the two `get ; del` programs. -/
def validSchedule (sched : List (Bool × ConsumeStep)) : Bool :=
  projSchedule true sched == [ConsumeStep.get, ConsumeStep.del] &&
  projSchedule false sched == [ConsumeStep.get, ConsumeStep.del]

/-! ## Concrete fixtures used by witnesses and counterexamples -/

def pkceVerifierFix : String := "aaaaaaaaaaaaaaaaaaaaaaaaaaaaaaaaaaaaaaaaaaa"

def pkceChallengeFix : String := "ZtNPunH49FD35FWYhT5Tv8I7vRKQJ8uxMaL0_9eHjNA"

def grantFix : OAuthAuthCode :=
  { code := "c1", client_id := "cl1", redirect_uri := "https://client.example/cb",
    code_challenge := pkceChallengeFix, code_challenge_method := "S256",
    scopes := ["strava"], expires_at := 400 }

def tokenFix : OAuthTokenRecord :=
  { access_token := "a1", refresh_token := "r1", client_id := "cl1",
    scopes := ["strava"], access_expires_at := 100, refresh_expires_at := 1000,
    expires_at := 1000 }

def clientFix : OAuthClient :=
  { client_id := "cl1", redirect_uris := ["https://client.example/cb"],
    created_at := 0 }

def cfgFix : OAuthConfig :=
  { enabled := true, accessTokenTtlSeconds := 50, refreshTokenTtlSeconds := 100,
    allowedRedirectUris := ["https://client.example/cb"] }

def refreshReqFix : TokenRequest :=
  { grant_type := some "refresh_token", refresh_token := some "r1",
    client_id := some "cl1" }

def authCodeReqFix : TokenRequest :=
  { grant_type := some "authorization_code", code := some "c1",
    redirect_uri := some "https://client.example/cb", client_id := some "cl1",
    code_verifier := some pkceVerifierFix }

def raceSchedule : List (Bool × ConsumeStep) :=
  [(true, .get), (false, .get), (true, .del), (false, .del)]

def gcfgSecretOnly : GatewayConfig := { AUTH_TOKEN := "secret", OAUTH_ENABLED := false }

def gcfgBoth : GatewayConfig := { AUTH_TOKEN := "secret", OAUTH_ENABLED := true }

def reqNoToken : GatewayRequest := { path := "/mcp" }

def reqWrongToken : GatewayRequest := { path := "/mcp", authorization := some "Bearer wrong" }

def reqRightToken : GatewayRequest := { path := "/mcp", authorization := some "Bearer secret" }

def reqStoredToken : GatewayRequest := { path := "/mcp", authorization := some "Bearer a1" }

def badRedirectUri : String := "https://evil.example/cb"

def authorizeInputBad : AuthorizeInput :=
  { response_type := some "code", client_id := some "cl1",
    redirect_uri := some badRedirectUri, code_challenge := some "x",
    code_challenge_method := some "S256" }

def registerReqBad : RegisterRequest := { redirect_uris := some [badRedirectUri] }

end StravaMCP

namespace StravaMCP

/-! ## Store lemmas -/

theorem getAuthCode_deleteAuthCode_self (tbl : List OAuthAuthCode) (c : String) :
    getAuthCode (deleteAuthCode tbl c) c = none := by
  rw [getAuthCode, List.find?_eq_none]
  intro a ha
  have h2 := (List.mem_filter.mp ha).2
  simp only [bne_iff_ne, ne_eq, decide_eq_true_eq] at h2
  simp [h2]

theorem getAuthCode_deleteAuthCode_none (tbl : List OAuthAuthCode) (x c : String)
    (h : getAuthCode tbl c = none) : getAuthCode (deleteAuthCode tbl x) c = none := by
  rw [getAuthCode, List.find?_eq_none] at h ⊢
  intro a ha
  exact h a (List.mem_filter.mp ha).1

theorem find?_map_replace {α : Type} (key : α → String) (tbl : List α) (item : α)
    (h : tbl.any (fun x => key x == key item) = true) :
    (tbl.map (fun x => if key x == key item then item else x)).find?
      (fun x => key x == key item) = some item := by
  induction tbl with
  | nil => simp at h
  | cons a as ih =>
      by_cases hk : (key a == key item) = true
      · simp [List.find?, hk]
      · have h2 : as.any (fun x => key x == key item) = true := by
          simp only [List.any_cons, Bool.or_eq_true] at h
          rcases h with h | h
          · exact absurd h hk
          · exact h
        simp only [List.map_cons, hk, if_false]
        rw [List.find?_cons_of_neg _ (by simp [hk])]
        exact ih h2

theorem find?_append_absent {α : Type} (key : α → String) (tbl : List α) (item : α)
    (h : tbl.any (fun x => key x == key item) = false) :
    (tbl ++ [item]).find? (fun x => key x == key item) = some item := by
  induction tbl with
  | nil => simp [List.find?]
  | cons a as ih =>
      simp only [List.any_cons, Bool.or_eq_false_iff] at h
      simp only [List.cons_append]
      rw [List.find?_cons_of_neg _ (by simp [h.1])]
      exact ih h.2

theorem find?_putItem {α : Type} (key : α → String) (tbl : List α) (item : α) :
    (putItem key tbl item).find? (fun x => key x == key item) = some item := by
  unfold putItem
  by_cases h : tbl.any (fun x => key x == key item) = true
  · rw [if_pos h]
    exact find?_map_replace key tbl item h
  · rw [if_neg h]
    exact find?_append_absent key tbl item (Bool.eq_false_iff.mpr h)

theorem getTokenByAccess_eq_none_any (tbl : List OAuthTokenRecord) (k : String)
    (h : getTokenByAccess tbl k = none) :
    tbl.any (fun x => x.access_token == k) = false := by
  rw [getTokenByAccess, List.find?_eq_none] at h
  rw [List.any_eq_false]
  exact h

theorem putToken_absent_append (tbl : List OAuthTokenRecord) (t : OAuthTokenRecord)
    (h : getTokenByAccess tbl t.access_token = none) :
    putToken tbl t = tbl ++ [t] := by
  rw [putToken, putItem, if_neg]
  rw [getTokenByAccess_eq_none_any tbl t.access_token h]
  simp

/-- Sanity: one uninterleaved `get ; del` run of the micro-step model computes
exactly `consumeAuthCode` (result and final table). -/
theorem consume_micro_model_sequential_agrees (tbl : List OAuthAuthCode) (c : String) :
    (consumerResult (runSchedule c { codes := tbl } [(true, .get), (true, .del)]).proc1,
     (runSchedule c { codes := tbl } [(true, .get), (true, .del)]).codes) =
    consumeAuthCode tbl c := by
  cases hg : getAuthCode tbl c <;>
    simp [runSchedule, stepTwo, stepConsumer, consumerResult, consumeAuthCode, hg]

/-- Claim C2 (exhibits the code bug): `consumeAuthCode` is a separate
unconditional read followed by an unconditional delete, so in the interleaving
get₁ ; get₂ ; del₁ ; del₂ of two concurrent redemptions of the same code both
calls receive the grant — not exactly one success. -/
theorem consume_auth_code_race_double_success :
    validSchedule raceSchedule = true ∧
    consumerResult (runSchedule "c1" { codes := [grantFix] } raceSchedule).proc1 = some grantFix ∧
    consumerResult (runSchedule "c1" { codes := [grantFix] } raceSchedule).proc2 = some grantFix := by
  decide

/-- Counterexample to claim C4 as stated: with OAuth enabled and the token
pair present, at `now = access_expires_at = 100` the claim predicts the token
is still live (`now > access_expires_at` is false), but `validateAccessToken`
returns `false` (the code tests `access_expires_at > now`). -/
theorem validate_rejects_at_expiry_instant :
    getTokenByAccess [tokenFix] "a1" = some tokenFix ∧ ¬ (100 > 100) ∧
    validateAccessToken cfgFix [tokenFix] 100 "a1" = false := by
  decide

/-- Claim C4 (amended): with OAuth enabled, `validateAccessToken` returns true
exactly when the token pair is present and `now` is strictly below
`access_expires_at`; it returns false when the pair is absent or
`now ≥ access_expires_at`, so a minted token is live strictly before its
expiry instant and rejected at the instant itself. -/
theorem validate_access_token_live_iff (cfg : OAuthConfig)
    (tokens : List OAuthTokenRecord) (now : Nat) (t : String)
    (h : cfg.enabled = true) :
    validateAccessToken cfg tokens now t = true ↔
      ∃ r, getTokenByAccess tokens t = some r ∧ now < r.access_expires_at := by
  unfold validateAccessToken
  rw [h]
  cases hg : getTokenByAccess tokens t with
  | none => simp [hg]
  | some r => simp [hg]

/-- Witness for `validate_access_token_live_iff`: one second before expiry the
fixture token is accepted. -/
theorem validate_access_token_live_iff_witness :
    validateAccessToken cfgFix [tokenFix] 99 "a1" = true :=
  (validate_access_token_live_iff cfgFix [tokenFix] 99 "a1" rfl).mpr
    ⟨tokenFix, by decide, by decide⟩

/-- Claim C10: when `enabled` is false `validateAccessToken` is constantly
false whatever the store, the clock and the bearer (so stored, unexpired
pairs included); consequently the gateway decision with OAuth disabled does
not depend on the token table at all. -/
theorem validate_access_token_disabled :
    (∀ (cfg : OAuthConfig) (tokens : List OAuthTokenRecord) (now : Nat) (t : String),
       validateAccessToken { cfg with enabled := false } tokens now t = false) ∧
    (∀ (gcfg : GatewayConfig) (oauthCfg : OAuthConfig) (sessions : List String)
       (tokens tokens' : List OAuthTokenRecord) (now : Nat) (r : GatewayRequest),
       gatewayMiddleware { gcfg with OAUTH_ENABLED := false } oauthCfg sessions tokens now r =
       gatewayMiddleware { gcfg with OAUTH_ENABLED := false } oauthCfg sessions tokens' now r) := by
  constructor
  · intro cfg tokens now t
    rfl
  · intro gcfg oauthCfg sessions tokens tokens' now r
    simp [gatewayMiddleware]

/-- Counterexample to claim C3 as stated: the tokens table is keyed by
`access_token`, and the record written on refresh carries the new access
token, so `putToken` appends rather than replaces — after a refresh the old
token pair is still stored and two records share the refresh-token lineage
`"r1"`. -/
theorem refresh_retains_old_token_record :
    getTokenByAccess ((postToken cfgFix { clients := [], codes := [], tokens := [tokenFix] }
        refreshReqFix 500 "a2" "x").2).tokens "a1" = some tokenFix ∧
    (((postToken cfgFix { clients := [], codes := [], tokens := [tokenFix] }
        refreshReqFix 500 "a2" "x").2).tokens.filter
      (fun t => t.refresh_token == "r1")).length = 2 := by
  decide

/-- With `grant_type = "refresh_token"` the token endpoint runs the refresh
branch. -/
theorem postToken_refresh_dispatch (cfg : OAuthConfig) (st : Store)
    (req : TokenRequest) (now : Nat) (fa fr : String)
    (hg : req.grant_type = some "refresh_token") :
    postToken cfg st req now fa fr = tokenRefresh cfg st req now fa := by
  unfold postToken
  rw [hg]
  rfl

/-- With `grant_type = "authorization_code"` the token endpoint runs the
code-redemption branch. -/
theorem postToken_authcode_dispatch (cfg : OAuthConfig) (st : Store)
    (req : TokenRequest) (now : Nat) (fa fr : String)
    (hg : req.grant_type = some "authorization_code") :
    postToken cfg st req now fa fr = tokenAuthorizationCode cfg st req now fa fr := by
  unfold postToken
  rw [hg]
  rfl

/-- The successful refresh branch, explicitly. -/
theorem tokenRefresh_success (cfg : OAuthConfig) (st : Store) (req : TokenRequest)
    (now : Nat) (fa rt : String) (old : OAuthTokenRecord)
    (hrt : req.refresh_token = some rt) (hrtne : rt ≠ "")
    (hcid : req.client_id = some old.client_id) (hcidne : old.client_id ≠ "")
    (hfound : getTokenByRefresh st.tokens rt = some old)
    (hexp : ¬ old.refresh_expires_at < now) :
    tokenRefresh cfg st req now fa =
      (.tokenOk fa "Bearer" cfg.accessTokenTtlSeconds old.refresh_token
         (joinScopes old.scopes),
       { st with
         tokens := putToken st.tokens
           { old with
             access_token := fa,
             access_expires_at := now + cfg.accessTokenTtlSeconds,
             expires_at := old.refresh_expires_at },
         clients := touchClient st.clients old.client_id now }) := by
  have h1 : truthy (some rt) = true := by simp [truthy, hrtne]
  have h2 : truthy (some old.client_id) = true := by simp [truthy, hcidne]
  unfold tokenRefresh
  rw [hrt, hcid]
  simp only [h1, h2, Bool.and_self, Bool.not_true, Bool.false_eq_true,
    if_false, Option.getD_some, hfound, bne_self_eq_false, if_neg hexp]

/-- Claim C3 (amended): a `refresh_token` grant mints a new access token with
a fresh access expiry and returns the same refresh token unchanged, but the
replacement record is keyed by the new access token, so it is appended to the
token store while the old record remains — a refresh-token lineage can hold
more than one live token pair at a time. -/
theorem refresh_appends_new_token_record
    (cfg : OAuthConfig) (st : Store) (req : TokenRequest) (now : Nat)
    (fa fr rt cid : String) (old : OAuthTokenRecord)
    (hg : req.grant_type = some "refresh_token")
    (hrt : req.refresh_token = some rt) (hrtne : rt ≠ "")
    (hcid : req.client_id = some cid) (hcidne : cid ≠ "")
    (hfound : getTokenByRefresh st.tokens rt = some old)
    (hclient : old.client_id = cid)
    (hexp : ¬ old.refresh_expires_at < now)
    (hfresh : getTokenByAccess st.tokens fa = none) :
    (postToken cfg st req now fa fr).1 =
      .tokenOk fa "Bearer" cfg.accessTokenTtlSeconds old.refresh_token
        (joinScopes old.scopes) ∧
    ((postToken cfg st req now fa fr).2).tokens =
      st.tokens ++ [{ old with
                      access_token := fa,
                      access_expires_at := now + cfg.accessTokenTtlSeconds,
                      expires_at := old.refresh_expires_at }] := by
  subst hclient
  rw [postToken_refresh_dispatch cfg st req now fa fr hg,
    tokenRefresh_success cfg st req now fa rt old hrt hrtne hcid hcidne hfound hexp]
  exact ⟨rfl, putToken_absent_append st.tokens _ hfresh⟩

/-- Witness for `refresh_appends_new_token_record` at the fixture store. -/
theorem refresh_appends_new_token_record_witness :
    (postToken cfgFix { clients := [], codes := [], tokens := [tokenFix] }
        refreshReqFix 500 "a2" "x").1 =
      .tokenOk "a2" "Bearer" cfgFix.accessTokenTtlSeconds tokenFix.refresh_token
        (joinScopes tokenFix.scopes) ∧
    ((postToken cfgFix { clients := [], codes := [], tokens := [tokenFix] }
        refreshReqFix 500 "a2" "x").2).tokens =
      [tokenFix] ++ [{ tokenFix with
                       access_token := "a2",
                       access_expires_at := 500 + cfgFix.accessTokenTtlSeconds,
                       expires_at := tokenFix.refresh_expires_at }] :=
  refresh_appends_new_token_record cfgFix
    { clients := [], codes := [], tokens := [tokenFix] } refreshReqFix 500
    "a2" "x" "r1" "cl1" tokenFix rfl rfl (by decide) rfl (by decide)
    (by decide) rfl (by decide) (by decide)

/-- Counterexample to claim C5 as stated: with the sane configuration
`accessTokenTtlSeconds = 50 ≤ refreshTokenTtlSeconds = 100`, a refresh at
`now = 960` against a stored pair whose `refresh_expires_at = 1000` writes a
record with `access_expires_at = 1010 > refresh_expires_at = 1000`. -/
theorem token_expiry_invariant_violated_at_late_refresh :
    cfgFix.accessTokenTtlSeconds ≤ cfgFix.refreshTokenTtlSeconds ∧
    getTokenByAccess ((postToken cfgFix { clients := [], codes := [], tokens := [tokenFix] }
        refreshReqFix 960 "a2" "x").2).tokens "a2" =
      some { access_token := "a2", refresh_token := "r1", client_id := "cl1",
             scopes := ["strava"], access_expires_at := 1010,
             refresh_expires_at := 1000, expires_at := 1000 } ∧
    ¬ (1010 ≤ 1000) := by
  decide

/-- The successful code-redemption branch, explicitly. -/
theorem tokenAuthorizationCode_success (cfg : OAuthConfig) (st : Store)
    (req : TokenRequest) (now : Nat) (fa fr c ruri v : String) (g : OAuthAuthCode)
    (hc : req.code = some c) (hcne : c ≠ "")
    (hru : req.redirect_uri = some ruri) (hrune : ruri ≠ "")
    (hcid : req.client_id = some g.client_id) (hcidne : g.client_id ≠ "")
    (hv : req.code_verifier = some v) (hvne : v ≠ "")
    (hfound : getAuthCode st.codes c = some g)
    (hru2 : g.redirect_uri = ruri)
    (hexp : ¬ g.expires_at < now)
    (hpkce : isValidPkceS256 v g.code_challenge = true) :
    tokenAuthorizationCode cfg st req now fa fr =
      (.tokenOk fa "Bearer" cfg.accessTokenTtlSeconds fr (joinScopes g.scopes),
       { clients := touchClient st.clients g.client_id now,
         codes := deleteAuthCode st.codes c,
         tokens := putToken st.tokens
           { access_token := fa, refresh_token := fr, client_id := g.client_id,
             scopes := g.scopes,
             access_expires_at := now + cfg.accessTokenTtlSeconds,
             refresh_expires_at := now + cfg.refreshTokenTtlSeconds,
             expires_at := now + cfg.refreshTokenTtlSeconds } }) := by
  have h1 : truthy (some c) = true := by simp [truthy, hcne]
  have h2 : truthy (some ruri) = true := by simp [truthy, hrune]
  have h3 : truthy (some g.client_id) = true := by simp [truthy, hcidne]
  have h4 : truthy (some v) = true := by simp [truthy, hvne]
  unfold tokenAuthorizationCode
  rw [hc, hru, hcid, hv]
  simp only [h1, h2, h3, h4, Bool.and_self, Bool.not_true, Bool.false_eq_true,
    if_false, Option.getD_some]
  simp only [consumeAuthCode, hfound]
  simp only [hru2, bne_self_eq_false, Bool.or_self, Bool.false_eq_true,
    if_false, if_neg hexp, hpkce, Bool.not_true]

/-- Claim C5 (amended): the record written at initial mint satisfies
`access_expires_at ≤ refresh_expires_at` exactly when
`accessTokenTtlSeconds ≤ refreshTokenTtlSeconds`, and the record written at
a refresh satisfies it exactly when the refresh happens no later than
`accessTokenTtlSeconds` before the preserved `refresh_expires_at`; the
invariant is not enforced for every configuration or refresh time. -/
theorem token_expiry_invariant_characterization :
    (∀ (cfg : OAuthConfig) (st : Store) (req : TokenRequest) (now : Nat)
       (fa fr c ruri v : String) (g : OAuthAuthCode),
       req.grant_type = some "authorization_code" →
       req.code = some c → c ≠ "" →
       req.redirect_uri = some ruri → ruri ≠ "" →
       req.client_id = some g.client_id → g.client_id ≠ "" →
       req.code_verifier = some v → v ≠ "" →
       getAuthCode st.codes c = some g → g.redirect_uri = ruri →
       ¬ g.expires_at < now → isValidPkceS256 v g.code_challenge = true →
       getTokenByAccess st.tokens fa = none →
       ((postToken cfg st req now fa fr).2).tokens =
         st.tokens ++ [{ access_token := fa, refresh_token := fr,
                         client_id := g.client_id, scopes := g.scopes,
                         access_expires_at := now + cfg.accessTokenTtlSeconds,
                         refresh_expires_at := now + cfg.refreshTokenTtlSeconds,
                         expires_at := now + cfg.refreshTokenTtlSeconds }] ∧
       (now + cfg.accessTokenTtlSeconds ≤ now + cfg.refreshTokenTtlSeconds ↔
         cfg.accessTokenTtlSeconds ≤ cfg.refreshTokenTtlSeconds)) ∧
    (∀ (cfg : OAuthConfig) (st : Store) (req : TokenRequest) (now : Nat)
       (fa fr rt : String) (old : OAuthTokenRecord),
       req.grant_type = some "refresh_token" →
       req.refresh_token = some rt → rt ≠ "" →
       req.client_id = some old.client_id → old.client_id ≠ "" →
       getTokenByRefresh st.tokens rt = some old →
       ¬ old.refresh_expires_at < now →
       getTokenByAccess st.tokens fa = none →
       ((postToken cfg st req now fa fr).2).tokens =
         st.tokens ++ [{ old with
                         access_token := fa,
                         access_expires_at := now + cfg.accessTokenTtlSeconds,
                         expires_at := old.refresh_expires_at }] ∧
       (now + cfg.accessTokenTtlSeconds ≤ old.refresh_expires_at ↔
         ({ old with
            access_token := fa,
            access_expires_at := now + cfg.accessTokenTtlSeconds,
            expires_at := old.refresh_expires_at } : OAuthTokenRecord).access_expires_at ≤
         ({ old with
            access_token := fa,
            access_expires_at := now + cfg.accessTokenTtlSeconds,
            expires_at := old.refresh_expires_at } : OAuthTokenRecord).refresh_expires_at)) := by
  constructor
  · intro cfg st req now fa fr c ruri v g hg hc hcne hru hrune hcid hcidne hv hvne
      hfound hru2 hexp hpkce hfresh
    rw [postToken_authcode_dispatch cfg st req now fa fr hg,
      tokenAuthorizationCode_success cfg st req now fa fr c ruri v g hc hcne hru
        hrune hcid hcidne hv hvne hfound hru2 hexp hpkce]
    exact ⟨putToken_absent_append st.tokens _ hfresh, by omega⟩
  · intro cfg st req now fa fr rt old hg hrt hrtne hcid hcidne hfound hexp hfresh
    rw [postToken_refresh_dispatch cfg st req now fa fr hg,
      tokenRefresh_success cfg st req now fa rt old hrt hrtne hcid hcidne hfound hexp]
    exact ⟨putToken_absent_append st.tokens _ hfresh, Iff.rfl⟩

/-- Witness for `token_expiry_invariant_characterization` (mint part) at the
fixture grant with a genuine PKCE verifier. -/
theorem token_expiry_invariant_characterization_witness :
    ((postToken cfgFix { clients := [clientFix], codes := [grantFix], tokens := [] }
        authCodeReqFix 300 "na" "nr").2).tokens =
      [] ++ [{ access_token := "na", refresh_token := "nr",
               client_id := grantFix.client_id, scopes := grantFix.scopes,
               access_expires_at := 300 + cfgFix.accessTokenTtlSeconds,
               refresh_expires_at := 300 + cfgFix.refreshTokenTtlSeconds,
               expires_at := 300 + cfgFix.refreshTokenTtlSeconds }] ∧
    (300 + cfgFix.accessTokenTtlSeconds ≤ 300 + cfgFix.refreshTokenTtlSeconds ↔
      cfgFix.accessTokenTtlSeconds ≤ cfgFix.refreshTokenTtlSeconds) :=
  token_expiry_invariant_characterization.1 cfgFix
    { clients := [clientFix], codes := [grantFix], tokens := [] }
    authCodeReqFix 300 "na" "nr" "c1" "https://client.example/cb" pkceVerifierFix
    grantFix rfl rfl (by decide) rfl (by decide) rfl (by decide) rfl (by decide)
    (by decide) rfl (by decide) (by decide) rfl

/-- Once the `authorization_code` branch reaches `consumeAuthCode`, the grant
keyed by the request's code is gone from the codes table afterwards, whatever
the outcome of the later mismatch/expiry/PKCE checks. -/
theorem tokenAuthorizationCode_consumes (cfg : OAuthConfig) (st : Store)
    (req : TokenRequest) (now : Nat) (fa fr : String)
    (hp : (truthy req.code && truthy req.redirect_uri && truthy req.client_id &&
           truthy req.code_verifier) = true) :
    getAuthCode ((tokenAuthorizationCode cfg st req now fa fr).2).codes
      (req.code.getD "") = none := by
  unfold tokenAuthorizationCode
  rw [hp]
  cases hg : getAuthCode st.codes (req.code.getD "") with
  | none => simp [consumeAuthCode, hg]
  | some g =>
      simp only [consumeAuthCode, hg, Bool.not_true, Bool.false_eq_true, if_false]
      repeat' split
      all_goals simp [getAuthCode_deleteAuthCode_self]

/-- The `authorization_code` branch never adds a grant: a code absent before
stays absent. -/
theorem tokenAuthorizationCode_preserves_absent (cfg : OAuthConfig) (st : Store)
    (req : TokenRequest) (now : Nat) (fa fr : String) (c : String)
    (habs : getAuthCode st.codes c = none) :
    getAuthCode ((tokenAuthorizationCode cfg st req now fa fr).2).codes c = none := by
  unfold tokenAuthorizationCode
  split
  · exact habs
  · cases hg : getAuthCode st.codes (req.code.getD "") with
    | none => simp [consumeAuthCode, hg, habs]
    | some g =>
        simp only [consumeAuthCode, hg]
        repeat' split
        all_goals simp [getAuthCode_deleteAuthCode_none _ _ _ habs]

/-- The `refresh_token` branch never touches the codes table. -/
theorem tokenRefresh_codes_unchanged (cfg : OAuthConfig) (st : Store)
    (req : TokenRequest) (now : Nat) (fa : String) :
    ((tokenRefresh cfg st req now fa).2).codes = st.codes := by
  unfold tokenRefresh
  repeat' split
  all_goals rfl

/-- The token endpoint never adds a grant: a code absent before any request
stays absent after it. -/
theorem postToken_preserves_absent (cfg : OAuthConfig) (st : Store)
    (req : TokenRequest) (now : Nat) (fa fr : String) (c : String)
    (habs : getAuthCode st.codes c = none) :
    getAuthCode ((postToken cfg st req now fa fr).2).codes c = none := by
  unfold postToken
  repeat' split
  all_goals first
    | exact habs
    | exact tokenAuthorizationCode_preserves_absent cfg st req now fa fr c habs
    | (rw [tokenRefresh_codes_unchanged]; exact habs)

/-- Absence of a grant is preserved by any sequence of token requests. -/
theorem runTokenSeq_preserves_absent (cfg : OAuthConfig)
    (steps : List (TokenRequest × Nat × String × String)) (c : String) :
    ∀ st : Store, getAuthCode st.codes c = none →
      getAuthCode (runTokenSeq cfg steps st).codes c = none := by
  induction steps with
  | nil => intro st h; simpa [runTokenSeq] using h
  | cons p ps ih =>
      intro st h
      simp only [runTokenSeq, List.foldl_cons] at *
      exact ih _ (postToken_preserves_absent cfg st p.1 p.2.1 p.2.2.1 p.2.2.2 c h)

/-- Redeeming a code that is absent from the codes table answers
`invalid_grant`. -/
theorem postToken_absent_invalid_grant (cfg : OAuthConfig) (st : Store)
    (req : TokenRequest) (now : Nat) (fa fr : String) (c : String)
    (hg : req.grant_type = some "authorization_code") (hc : req.code = some c)
    (hp : (truthy req.code && truthy req.redirect_uri && truthy req.client_id &&
           truthy req.code_verifier) = true)
    (habs : getAuthCode st.codes c = none) :
    (postToken cfg st req now fa fr).1 =
      .oauthError 400 "invalid_grant" (some "Invalid or expired code") := by
  rw [postToken_authcode_dispatch cfg st req now fa fr hg]
  unfold tokenAuthorizationCode
  rw [hp, hc]
  simp [consumeAuthCode, habs]

/-- Claim C1: an `authorization_code` token request that reaches grant
consumption (all four parameters present) leaves the grant absent from the
codes table — whether redemption then succeeds or fails at the
mismatch/expiry/PKCE checks — and after any further sequence of token
requests, a later `authorization_code` request presenting the same code is
answered `invalid_grant`: sequentially, a code is never exchanged twice. -/
theorem auth_code_single_use_sequential
    (cfg : OAuthConfig) (st : Store) (req₁ req₂ : TokenRequest) (c : String)
    (now₁ now₂ : Nat) (fa₁ fr₁ fa₂ fr₂ : String)
    (steps : List (TokenRequest × Nat × String × String))
    (h₁g : req₁.grant_type = some "authorization_code") (h₁c : req₁.code = some c)
    (h₁p : (truthy req₁.code && truthy req₁.redirect_uri && truthy req₁.client_id &&
            truthy req₁.code_verifier) = true)
    (h₂g : req₂.grant_type = some "authorization_code") (h₂c : req₂.code = some c)
    (h₂p : (truthy req₂.code && truthy req₂.redirect_uri && truthy req₂.client_id &&
            truthy req₂.code_verifier) = true) :
    getAuthCode ((postToken cfg st req₁ now₁ fa₁ fr₁).2).codes c = none ∧
    (postToken cfg (runTokenSeq cfg steps (postToken cfg st req₁ now₁ fa₁ fr₁).2)
        req₂ now₂ fa₂ fr₂).1 =
      .oauthError 400 "invalid_grant" (some "Invalid or expired code") := by
  have h1 : getAuthCode ((postToken cfg st req₁ now₁ fa₁ fr₁).2).codes c = none := by
    rw [postToken_authcode_dispatch cfg st req₁ now₁ fa₁ fr₁ h₁g]
    have h := tokenAuthorizationCode_consumes cfg st req₁ now₁ fa₁ fr₁ h₁p
    rw [h₁c] at h
    simpa using h
  refine ⟨h1, ?_⟩
  have h2 := runTokenSeq_preserves_absent cfg steps c _ h1
  exact postToken_absent_invalid_grant cfg _ req₂ now₂ fa₂ fr₂ c h₂g h₂c h₂p h2

/-- Witness for `auth_code_single_use_sequential`: the fixture grant is gone
after the first redemption and an immediate replay gets `invalid_grant`. -/
theorem auth_code_single_use_sequential_witness :
    getAuthCode ((postToken cfgFix { clients := [clientFix], codes := [grantFix], tokens := [] }
        authCodeReqFix 300 "na" "nr").2).codes "c1" = none ∧
    (postToken cfgFix
        (runTokenSeq cfgFix []
          (postToken cfgFix { clients := [clientFix], codes := [grantFix], tokens := [] }
            authCodeReqFix 300 "na" "nr").2)
        authCodeReqFix 301 "na2" "nr2").1 =
      .oauthError 400 "invalid_grant" (some "Invalid or expired code") :=
  auth_code_single_use_sequential cfgFix
    { clients := [clientFix], codes := [grantFix], tokens := [] }
    authCodeReqFix authCodeReqFix "c1" 300 301 "na" "nr" "na2" "nr2" []
    rfl rfl (by decide) rfl rfl (by decide)

/-- Every rejection of the gateway middleware carries the one uniform shape. -/
theorem gateway_unauthorized_shape (cfg : GatewayConfig) (oauthCfg : OAuthConfig)
    (sessions : List String) (tokens : List OAuthTokenRecord) (now : Nat)
    (r : GatewayRequest) (s : Nat) (e m : String)
    (h : gatewayMiddleware cfg oauthCfg sessions tokens now r = .unauthorized s e m) :
    s = 401 ∧ e = "Unauthorized" ∧ m = "Missing or invalid access token" := by
  unfold gatewayMiddleware at h
  repeat' split at h
  all_goals cases h
  all_goals exact ⟨rfl, rfl, rfl⟩

/-- Claim C9: any two requests rejected by the gateway middleware receive
identical responses — status 401 with the same error and message strings —
whatever internal check failed for each. -/
theorem gateway_rejection_uniform
    (cfg₁ cfg₂ : GatewayConfig) (oc₁ oc₂ : OAuthConfig) (ss₁ ss₂ : List String)
    (tk₁ tk₂ : List OAuthTokenRecord) (n₁ n₂ : Nat) (r₁ r₂ : GatewayRequest)
    (s₁ s₂ : Nat) (e₁ e₂ m₁ m₂ : String)
    (h₁ : gatewayMiddleware cfg₁ oc₁ ss₁ tk₁ n₁ r₁ = .unauthorized s₁ e₁ m₁)
    (h₂ : gatewayMiddleware cfg₂ oc₂ ss₂ tk₂ n₂ r₂ = .unauthorized s₂ e₂ m₂) :
    s₁ = s₂ ∧ e₁ = e₂ ∧ m₁ = m₂ ∧
    s₁ = 401 ∧ e₁ = "Unauthorized" ∧ m₁ = "Missing or invalid access token" := by
  obtain ⟨hs₁, he₁, hm₁⟩ := gateway_unauthorized_shape cfg₁ oc₁ ss₁ tk₁ n₁ r₁ s₁ e₁ m₁ h₁
  obtain ⟨hs₂, he₂, hm₂⟩ := gateway_unauthorized_shape cfg₂ oc₂ ss₂ tk₂ n₂ r₂ s₂ e₂ m₂ h₂
  exact ⟨hs₁.trans hs₂.symm, he₁.trans he₂.symm, hm₁.trans hm₂.symm, hs₁, he₁, hm₁⟩

/-- The shared `/authorize` validation chain rejects with
`invalid_redirect_uri` whenever the redirect is not both registered for the
client and globally allow-listed. -/
theorem authorizeValidate_bad_redirect (cfg : OAuthConfig)
    (clients : List OAuthClient) (inp : AuthorizeInput) (client : OAuthClient)
    (hrt : inp.response_type = some "code")
    (hp : (truthy inp.client_id && truthy inp.redirect_uri &&
           truthy inp.code_challenge && truthy inp.code_challenge_method) = true)
    (hm : inp.code_challenge_method = some "S256")
    (hcl : getClient clients (inp.client_id.getD "") = some client)
    (hbad : ¬ (client.redirect_uris.contains (inp.redirect_uri.getD "") = true ∧
               ensureRedirectAllowed (inp.redirect_uri.getD "")
                 cfg.allowedRedirectUris = true)) :
    ∃ d, authorizeValidate cfg clients inp =
      .failed (.oauthError 400 "invalid_redirect_uri" d) := by
  unfold authorizeValidate
  rw [hrt]
  simp only [bne_self_eq_false, Bool.false_eq_true, if_false]
  rw [hp]
  simp only [Bool.not_true, Bool.false_eq_true, if_false]
  rw [hm]
  simp only [bne_self_eq_false, Bool.false_eq_true, if_false, hcl]
  by_cases hc : client.redirect_uris.contains (inp.redirect_uri.getD "") = true
  · have ha : ensureRedirectAllowed (inp.redirect_uri.getD "")
        cfg.allowedRedirectUris = false := by
      cases hA : ensureRedirectAllowed (inp.redirect_uri.getD "") cfg.allowedRedirectUris with
      | false => rfl
      | true => exact absurd ⟨hc, hA⟩ hbad
    refine ⟨some "Redirect URI not allowed", ?_⟩
    rw [hc, ha]
    rfl
  · have hcf : client.redirect_uris.contains (inp.redirect_uri.getD "") = false :=
      Bool.eq_false_iff.mpr hc
    refine ⟨some "Redirect URI mismatch", ?_⟩
    rw [hcf]
    rfl

/-- Claim C7: at both `GET /authorize` and `POST /authorize`, a well-formed
request whose redirect is not both registered for the resolved client and on
the global allow-list is rejected with `invalid_redirect_uri` and the store is
untouched (no grant is created); and at `POST /register` any supplied
redirect failing the allow-list fails the whole registration with a 400
`invalid_redirect_uri` and persists no client. -/
theorem redirect_uri_double_check_rejection :
    (∀ (cfg : OAuthConfig) (st : Store) (inp : AuthorizeInput) (now : Nat)
       (code : String) (client : OAuthClient),
       inp.response_type = some "code" →
       (truthy inp.client_id && truthy inp.redirect_uri &&
        truthy inp.code_challenge && truthy inp.code_challenge_method) = true →
       inp.code_challenge_method = some "S256" →
       getClient st.clients (inp.client_id.getD "") = some client →
       ¬ (client.redirect_uris.contains (inp.redirect_uri.getD "") = true ∧
          ensureRedirectAllowed (inp.redirect_uri.getD "")
            cfg.allowedRedirectUris = true) →
       (∃ d, getAuthorize cfg st.clients inp = .oauthError 400 "invalid_redirect_uri" d) ∧
       (∃ d, (postAuthorize cfg st inp now code).1 =
          .oauthError 400 "invalid_redirect_uri" d) ∧
       (postAuthorize cfg st inp now code).2 = st) ∧
    (∀ (cfg : OAuthConfig) (clients : List OAuthClient) (req : RegisterRequest)
       (now : Nat) (clientId : String) (uris : List String) (uri : String),
       (truthy cfg.registrationToken = false ∨
        registrationHeaderToken req = cfg.registrationToken) →
       req.redirect_uris = some uris → uri ∈ uris →
       ensureRedirectAllowed uri cfg.allowedRedirectUris = false →
       postRegister cfg clients req now clientId =
         (.oauthError 400 "invalid_redirect_uri" (some "redirect_uri not allowed"),
          clients)) := by
  constructor
  · intro cfg st inp now code client hrt hp hm hcl hbad
    obtain ⟨d, hd⟩ := authorizeValidate_bad_redirect cfg st.clients inp client
      hrt hp hm hcl hbad
    refine ⟨⟨d, ?_⟩, ⟨d, ?_⟩, ?_⟩
    · simp [getAuthorize, hd]
    · simp [postAuthorize, hd]
    · simp [postAuthorize, hd]
  · intro cfg clients req now clientId uris uri hgate hu hmem hnal
    have hbody : postRegisterBody cfg clients req now clientId =
        (.oauthError 400 "invalid_redirect_uri" (some "redirect_uri not allowed"),
         clients) := by
      unfold postRegisterBody
      rw [hu]
      have hne : uris.isEmpty = false := by
        cases uris with
        | nil => cases hmem
        | cons a as => rfl
      have hany : uris.any
          (fun u => !(ensureRedirectAllowed u cfg.allowedRedirectUris)) = true :=
        List.any_eq_true.mpr ⟨uri, hmem, by simp [hnal]⟩
      simp [hne, hany]
    unfold postRegister
    cases hg : truthy cfg.registrationToken with
    | false => simpa [hg] using hbody
    | true =>
        rcases hgate with h | h
        · rw [hg] at h
          cases h
        · simpa [hg, h] using hbody

/-- Witness for `redirect_uri_double_check_rejection`: an off-allow-list
redirect is rejected at authorize (GET and POST, store untouched) and at
register (no client persisted). -/
theorem redirect_uri_double_check_rejection_witness :
    ((∃ d, getAuthorize cfgFix ({ clients := [clientFix], codes := [], tokens := [] } : Store).clients
        authorizeInputBad = .oauthError 400 "invalid_redirect_uri" d) ∧
     (∃ d, (postAuthorize cfgFix { clients := [clientFix], codes := [], tokens := [] }
        authorizeInputBad 300 "newcode").1 = .oauthError 400 "invalid_redirect_uri" d) ∧
     (postAuthorize cfgFix { clients := [clientFix], codes := [], tokens := [] }
        authorizeInputBad 300 "newcode").2 =
       { clients := [clientFix], codes := [], tokens := [] }) ∧
    postRegister cfgFix [] registerReqBad 300 "newclient" =
      (.oauthError 400 "invalid_redirect_uri" (some "redirect_uri not allowed"), []) :=
  ⟨redirect_uri_double_check_rejection.1 cfgFix
     { clients := [clientFix], codes := [], tokens := [] } authorizeInputBad 300
     "newcode" clientFix rfl (by decide) rfl (by decide) (by decide),
   redirect_uri_double_check_rejection.2 cfgFix [] registerReqBad 300 "newclient"
     [badRedirectUri] badRedirectUri (Or.inl rfl) rfl (by decide) (by decide)⟩

/-- Claim C8: for a request off the public path list and without a live
session, the middleware (a) admits a bearer equal to a configured static
secret, (b) with OAuth enabled also admits any nonempty bearer the access
validator accepts, (c) with OAuth disabled and a static secret configured
rejects with 401 whenever the bearer differs from the secret (or is absent),
and (d) with neither configured admits unconditionally. -/
theorem gateway_admission_policy
    (cfg : GatewayConfig) (oauthCfg : OAuthConfig) (sessions : List String)
    (tokens : List OAuthTokenRecord) (now : Nat) (r : GatewayRequest)
    (hpub : publicPaths.contains r.path = false)
    (hsess : (r.path == "/message" && truthy r.sessionId &&
              sessions.contains (r.sessionId.getD "")) = false) :
    (∀ t : String, extractToken r = some t → cfg.AUTH_TOKEN ≠ "" →
       t = cfg.AUTH_TOKEN →
       gatewayMiddleware cfg oauthCfg sessions tokens now r = .next) ∧
    (∀ t : String, extractToken r = some t → t ≠ "" →
       cfg.OAUTH_ENABLED = true →
       validateAccessToken { oauthCfg with enabled := true } tokens now t = true →
       gatewayMiddleware cfg oauthCfg sessions tokens now r = .next) ∧
    (cfg.OAUTH_ENABLED = false → cfg.AUTH_TOKEN ≠ "" →
       extractToken r ≠ some cfg.AUTH_TOKEN →
       gatewayMiddleware cfg oauthCfg sessions tokens now r =
         .unauthorized 401 "Unauthorized" "Missing or invalid access token") ∧
    (cfg.AUTH_TOKEN = "" → cfg.OAUTH_ENABLED = false →
       gatewayMiddleware cfg oauthCfg sessions tokens now r = .next) := by
  refine ⟨?_, ?_, ?_, ?_⟩
  · intro t hx hs ht
    subst ht
    unfold gatewayMiddleware
    simp [hpub, hsess, hx, truthy, bne_iff_ne, hs]
  · intro t hx ht hoe hv
    unfold gatewayMiddleware
    simp only [hpub, hsess, Bool.false_eq_true, if_false]
    by_cases h1 : (truthy (extractToken r) && cfg.AUTH_TOKEN != "" &&
        extractToken r == some cfg.AUTH_TOKEN) = true
    · rw [if_pos h1]
    · rw [if_neg h1, if_pos]
      rw [hx, hoe]
      simp only [truthy, Option.getD_some]
      rw [hv]
      simp [bne_iff_ne, ht]
  · intro hoe hs hne
    have h1 : (extractToken r == some cfg.AUTH_TOKEN) = false := by
      simp [hne]
    have h2 : (cfg.AUTH_TOKEN == "") = false := by
      simp [hs]
    unfold gatewayMiddleware
    rw [hpub, hsess, hoe, h1, h2]
    simp
  · intro hs hoe
    unfold gatewayMiddleware
    simp [hpub, hsess, hoe, hs]

/-- Witness for `gateway_admission_policy`: with only the static secret
configured, the exact secret as bearer is admitted on a protected path. -/
theorem gateway_admission_policy_witness :
    gatewayMiddleware gcfgSecretOnly cfgFix [] [] 0 reqRightToken = .next :=
  (gateway_admission_policy gcfgSecretOnly cfgFix [] [] 0 reqRightToken
      (by decide) (by decide)).1 "secret" (by decide) (by decide) rfl

/-- PKCE: provable characterization of `isValidPkceS256` — true exactly when
the verifier length is within 43..128, every character is in the PKCE class,
and the base64url SHA-256 of the verifier equals the challenge.  (Supports
claim C6; its final single-character-mutation conjunct is a SHA-256
collision-freeness conjecture and is settled separately.) -/
theorem isValidPkceS256_characterization (v ch : String) :
    isValidPkceS256 v ch = true ↔
      (43 ≤ v.length ∧ v.length ≤ 128 ∧ v.toList.all isPkceChar = true ∧
       sha256Base64Url v = ch) := by
  unfold isValidPkceS256
  by_cases h1 : (v.length < 43 || v.length > 128) = true
  · rw [if_pos h1]
    simp only [Bool.or_eq_true, decide_eq_true_eq] at h1
    constructor
    · intro h
      cases h
    · intro ⟨ha, hb, _, _⟩
      rcases h1 with h | h <;> omega
  · rw [if_neg h1]
    simp only [Bool.or_eq_true, decide_eq_true_eq, not_or] at h1
    by_cases h2 : v.toList.all isPkceChar = true
    · rw [h2]
      simp only [Bool.not_true, Bool.false_eq_true, if_false, beq_iff_eq]
      constructor
      · intro h
        refine ⟨by omega, by omega, ?_, h⟩
        trivial
      · intro h
        exact h.2.2.2
    · rw [Bool.eq_false_iff.mpr h2]
      simp only [Bool.not_false, if_true]
      constructor
      · intro h
        cases h
      · intro h
        exact absurd h.2.2.1 (by decide)

/-- PKCE round trip: any verifier within bounds over the PKCE character class
verifies against its own challenge. -/
theorem isValidPkceS256_roundtrip (v : String) (h43 : 43 ≤ v.length)
    (h128 : v.length ≤ 128) (hchars : v.toList.all isPkceChar = true) :
    isValidPkceS256 v (sha256Base64Url v) = true :=
  (isValidPkceS256_characterization v (sha256Base64Url v)).mpr
    ⟨h43, h128, hchars, rfl⟩

/-- PKCE bounds are mandatory: a verifier outside 43..128 is rejected even
against its own (matching) challenge. -/
theorem isValidPkceS256_bounds_mandatory (v ch : String)
    (h : v.length < 43 ∨ 128 < v.length) : isValidPkceS256 v ch = false := by
  unfold isValidPkceS256
  rw [if_pos]
  rcases h with h | h <;> simp [h]

/-- Witness for `gateway_rejection_uniform`: a missing bearer with only a
static secret configured, and a wrong bearer with both schemes enabled, are
rejected with the identical body. -/
theorem gateway_rejection_uniform_witness :
    (401 : Nat) = 401 ∧ "Unauthorized" = "Unauthorized" ∧
    "Missing or invalid access token" = "Missing or invalid access token" ∧
    (401 : Nat) = 401 ∧ "Unauthorized" = "Unauthorized" ∧
    "Missing or invalid access token" = "Missing or invalid access token" :=
  gateway_rejection_uniform gcfgSecretOnly gcfgBoth cfgFix cfgFix [] [] [] [tokenFix]
    0 200 reqNoToken reqWrongToken 401 401 "Unauthorized" "Unauthorized"
    "Missing or invalid access token" "Missing or invalid access token"
    (by decide) (by decide)

end StravaMCP
